import Mathlib

/-!
Verification of the client-management backend's authentication and
authorization core, shallowly embedded from the Python sources
(`middleware/auth.py`, `routes/auth_routes.py`, `routes/client_routes.py`,
`routes/payment_routes.py`, `routes/tasks_routes.py`, `models.py`,
`config.py`).

Modelling conventions:
* Time is a `Nat` counted in days (the code's `timedelta(days=...)` windows
  are whole days; `datetime.utcnow()` becomes an explicit `now` parameter).
* The external PyJWT library's `jwt.encode`/`jwt.decode` contract is modelled
  by an injective serialization `jwtEncode` and a total parser `jwtDecodeL`:
  a token carries `{user_id, exp}` plus a signature which is valid exactly
  when it was produced with the verifier's key.  The compact base64 format is
  the library's concern; here the counts are serialized in unary so that the
  round trip is provable.  PyJWT checks the signature before the `exp` claim
  and treats a token as expired when `exp < now` (zero leeway).
* Python's `str.split(' ')` (single-char separator, keeping empties) is
  modelled by `splitOnChar ' '` on the character list.
* `werkzeug`'s `generate_password_hash`/`check_password_hash` pair is
  modelled by an injective tagging function `hashPw`.
* The SQLAlchemy session's transactional contract is modelled by a
  `commitOk : Bool` parameter: `db.session.commit()` either applies every
  staged mutation or raises, in which case the handler rolls back and the
  state is unchanged.
* ORM-generated columns that the verified flows never read
  (`id`/`created_at`/`updated_at` defaults) are omitted from the records.
-/

namespace CMB

/-- `config.py`: `JWT_EXPIRATION_DAYS = 7`. -/
def JWT_EXPIRATION_DAYS : Nat := 7

/-- `config.py`: `PASSWORD_RESET_TOKEN_EXPIRATION_DAYS = 7`. -/
def PASSWORD_RESET_TOKEN_EXPIRATION_DAYS : Nat := 7

/-- `config.py`: default `FRONTEND_URL`. -/
def FRONTEND_URL : String := "http://localhost:3000"

/-- Python's `s.split(sep)` for a one-character separator: splits on every
occurrence and keeps empty fragments (`''.split(' ') == ['']`,
`'a  b'.split(' ') == ['a','','b']`). -/
def splitOnChar (sep : Char) : List Char → List (List Char)
  | [] => [[]]
  | c :: rest =>
    match splitOnChar sep rest with
    | [] => if c = sep then [[], []] else [[c]]
    | w :: ws => if c = sep then [] :: w :: ws else (c :: w) :: ws

/-- Count the leading run of `'x'` characters; return the count and the
remainder.  Used by the unary JWT parser. -/
def parseXs : List Char → Nat × List Char
  | [] => (0, [])
  | c :: rest =>
    if c = 'x' then
      let (n, r) := parseXs rest
      (n + 1, r)
    else (0, c :: rest)

/-- Model of the external `jwt.encode({'user_id': uid, 'exp': exp}, key)`:
an injective serialization of the claim set together with a signature that
records the signing key. -/
def jwtEncode (uid : String) (exp : Nat) (key : String) : String :=
  "jwt." ++ String.mk (List.replicate uid.data.length 'x') ++ "." ++ uid
    ++ String.mk (List.replicate exp 'x') ++ "." ++ key

/-- Structural parser underlying the model of `jwt.decode`: recover the
`user_id` characters, the `exp` claim and the signature, or `none` for a
malformed token string. -/
def jwtDecodeL : List Char → Option (List Char × Nat × List Char)
  | 'j' :: 'w' :: 't' :: '.' :: r0 =>
    let (n, r1) := parseXs r0
    match r1 with
    | '.' :: r2 =>
      let uid := r2.take n
      let r3 := r2.drop n
      let (e, r4) := parseXs r3
      match r4 with
      | '.' :: sig => some (uid, e, sig)
      | _ => none
    | _ => none
  | _ => none

/-- Outcome of the external `jwt.decode(token, key, algorithms=['HS256'])`:
success with the claim set, `ExpiredSignatureError`, or `InvalidTokenError`
(malformed structure or signature mismatch). -/
inductive JwtResult where
  | ok (user_id : String) (exp : Nat)
  | expired
  | invalid
deriving DecidableEq

/-- Model of `jwt.decode(token, key, algorithms=['HS256'])` at time `now`:
reject malformed tokens and wrong-key signatures as `InvalidTokenError`,
then (as PyJWT does, after the signature) reject `exp < now` as
`ExpiredSignatureError`. -/
def jwtVerify (tok : List Char) (key : String) (now : Nat) : JwtResult :=
  match jwtDecodeL tok with
  | none => .invalid
  | some (uid, exp, sig) =>
    if sig = key.data then
      if exp < now then .expired else .ok (String.mk uid) exp
    else .invalid

/-- `werkzeug.generate_password_hash(pw, method='pbkdf2:sha256')`, modelled
as an injective tagging function. -/
def hashPw (pw : String) : String := "pbkdf2:sha256$" ++ pw

/-- `werkzeug.check_password_hash(stored, candidate)`. -/
def checkPasswordHash (stored candidate : String) : Bool :=
  stored == hashPw candidate

/-- The token built by `signup`/`login`:
`jwt.encode({'user_id': user.id, 'exp': utcnow() + timedelta(days=JWT_EXPIRATION_DAYS)}, SECRET_KEY)`. -/
def issueToken (uid : String) (now : Nat) (key : String) : String :=
  jwtEncode uid (now + JWT_EXPIRATION_DAYS) key

/- ### Data model (`models.py`) -/

/-- `models.py` `User` (ORM-managed timestamps omitted). -/
structure User where
  id : String
  email : String
  password_hash : String
  full_name : String
  company : String
deriving DecidableEq

/-- `models.py` `PasswordResetToken` (ORM-generated `id`/`created_at`
omitted; they are never read by the flows under verification). -/
structure PasswordResetToken where
  user_id : String
  token : String
  expires_at : Nat
  used : Bool
deriving DecidableEq

/-- `models.py` `Client`. -/
structure Client where
  id : String
  name : String
  email : String
  phone : String
  company : String
  user_id : String
deriving DecidableEq

/-- `models.py` `Payment` (the `Float` amount column is modelled as `Int`;
no verified claim depends on numeric semantics). -/
structure Payment where
  id : String
  amount : Int
  currency : String
  description : String
  status : String
  payment_method : String
  transaction_id : String
  client_id : String
  user_id : String
deriving DecidableEq

/-- `models.py` `Project` (`Float` budget and the date columns omitted; the
verified flows only consult `id` and `user_id`). -/
structure Project where
  id : String
  name : String
  description : String
  status : String
  client_id : String
  user_id : String
deriving DecidableEq

/-- `models.py` `Task`. -/
structure Task where
  id : String
  title : String
  description : String
  status : String
  priority : String
  due_date : Option Nat
  completed_at : Option Nat
  project_id : String
  user_id : String
deriving DecidableEq

/-- The persistent store: one list per table. -/
structure DB where
  users : List User
  resetTokens : List PasswordResetToken
  clients : List Client
  payments : List Payment
  projects : List Project
  tasks : List Task
deriving DecidableEq

/-- Mutating the first row matched by a SQLAlchemy `.first()` query and
committing: replace the first list element satisfying `p` by its image
under `f`. -/
def updateFirst (p : α → Bool) (f : α → α) : List α → List α
  | [] => []
  | x :: xs => if p x then f x :: xs else x :: updateFirst p f xs

/- ### Authorization gate (`middleware/auth.py`, `token_required`) -/

/-- Visible outcome of the `token_required` gate: either the wrapped handler
runs with the resolved user, or a JSON error with an HTTP status. -/
inductive GateResult where
  | ok (u : User)
  | err (msg : String) (status : Nat)
deriving DecidableEq

/-- `middleware/auth.py` `token_required` up to the point where the wrapped
handler runs: extract `auth_header.split(' ')[1]` (an `IndexError` yields
`'Invalid token format'`), treat an empty or absent token as missing,
decode the JWT, and resolve `User.query.get(data['user_id'])`. -/
def tokenRequired (db : DB) (key : String) (now : Nat)
    (header : Option String) : GateResult :=
  match header with
  | none => .err "Token is missing" 401
  | some h =>
    match (splitOnChar ' ' h.data).get? 1 with
    | none => .err "Invalid token format" 401
    | some tok =>
      if tok = [] then .err "Token is missing" 401
      else
        match jwtVerify tok key now with
        | .expired => .err "Token has expired" 401
        | .invalid => .err "Invalid token" 401
        | .ok uid _ =>
          match db.users.find? (fun u => u.id == uid) with
          | none => .err "User not found" 401
          | some u => .ok u

/-- `routes/auth_routes.py` `get_user_from_token`: requires the header to
start with `'Bearer '`, then decodes the second space-separated field and
resolves the user; a missing user yields status 404 here. -/
def getUserFromToken (db : DB) (key : String) (now : Nat)
    (header : Option String) : Except (String × Nat) User :=
  match header with
  | none => .error ("Authorization token required", 401)
  | some h =>
    if h.data.take 7 = "Bearer ".data then
      let tok := ((splitOnChar ' ' h.data).get? 1).getD []
      match jwtVerify tok key now with
      | .expired => .error ("Token has expired", 401)
      | .invalid => .error ("Invalid token", 401)
      | .ok uid _ =>
        match db.users.find? (fun u => u.id == uid) with
        | none => .error ("User not found", 404)
        | some u => .ok u
    else .error ("Authorization token required", 401)

/- ### Login (`routes/auth_routes.py`, `login`) -/

/-- Visible outcome of `login`. -/
inductive LoginResult where
  | ok (token : String) (u : User)
  | err (msg : String) (status : Nat)
deriving DecidableEq

/-- `routes/auth_routes.py` `login`: reject missing fields, look the user up
by email, check the password hash, and issue a 7-day JWT. -/
def login (db : DB) (key : String) (now : Nat) (email pw : String) :
    LoginResult :=
  if email = "" ∨ pw = "" then
    .err "Email and password are required" 400
  else
    match db.users.find? (fun u => u.email == email) with
    | none => .err "Invalid email or password" 401
    | some u =>
      if checkPasswordHash u.password_hash pw then
        .ok (issueToken u.id now key) u
      else .err "Invalid email or password" 401

/- ### Password-reset flow (`routes/auth_routes.py`) -/

/-- An email handed to the outbound `send_reset_email` collaborator. -/
structure EmailMsg where
  to_addr : String
  user_name : String
  reset_url : String
deriving DecidableEq

/-- `routes/auth_routes.py` `forgot_password`.  Inputs: the store, the
current time, the fresh random token produced by
`secrets.token_urlsafe(32)` (external randomness, passed in), the request
email, and the transactional outcome of `db.session.commit()`.  Output: the
new store, the emails dispatched, and the JSON response. -/
def forgotPassword (db : DB) (now : Nat) (newTok : String) (email : String)
    (commitOk : Bool) : DB × List EmailMsg × (String × Nat) :=
  if email = "" then (db, [], ("Email is required", 400))
  else
    match db.users.find? (fun u => u.email == email) with
    | none =>
      -- Return success even if user doesn't exist (security best practice)
      (db, [], ("If an account exists, a password reset email has been sent", 200))
    | some u =>
      if commitOk then
        ({ db with resetTokens :=
            db.resetTokens.filter (fun r => !(r.user_id == u.id))
              ++ [{ user_id := u.id, token := newTok,
                    expires_at := now + PASSWORD_RESET_TOKEN_EXPIRATION_DAYS,
                    used := false }] },
         [{ to_addr := u.email, user_name := u.full_name,
            reset_url := FRONTEND_URL ++ "/reset-password?token=" ++ newTok }],
         ("If an account exists, a password reset email has been sent", 200))
      else (db, [], ("Error processing request", 500))

/-- The `.filter_by(token=.., used=False).first()` lookup in `reset_password`. -/
def activeTokenQuery (tok : String) (r : PasswordResetToken) : Bool :=
  r.token == tok && !r.used

/-- `routes/auth_routes.py` `reset_password`: find an unused record matching
the token string, fail if none or if its expiry has passed, otherwise update
the owning user's password hash and set `used := true` in one commit.  An
unresolvable `user_id` (the `user.password_hash` attribute access on `None`)
and a failed commit both surface the 500 handler after rollback. -/
def resetPassword (db : DB) (now : Nat) (tok newPw : String)
    (commitOk : Bool) : DB × (String × Nat) :=
  if tok = "" ∨ newPw = "" then
    (db, ("Token and new password are required", 400))
  else
    match db.resetTokens.find? (activeTokenQuery tok) with
    | none => (db, ("Invalid or expired token", 400))
    | some r =>
      if r.expires_at < now then (db, ("Token has expired", 400))
      else
        match db.users.find? (fun u => u.id == r.user_id) with
        | none => (db, ("Error resetting password", 500))
        | some _ =>
          if commitOk then
            ({ db with
                users := updateFirst (fun u => u.id == r.user_id)
                  (fun u => { u with password_hash := hashPw newPw }) db.users,
                resetTokens := updateFirst (activeTokenQuery tok)
                  (fun rr => { rr with used := true }) db.resetTokens },
             ("Password reset successful", 200))
          else (db, ("Error resetting password", 500))

/- ### Ownership-scoped resource access -/

/-- Visible outcome of a resource handler: a JSON payload or a JSON message,
each with an HTTP status. -/
inductive Outcome (α : Type) where
  | payload (a : α) (status : Nat)
  | msg (m : String) (status : Nat)
deriving DecidableEq

/-- The `.filter_by(id=rid, user_id=caller.id).first()` ownership query. -/
def ownedClient (caller : User) (cid : String) (c : Client) : Bool :=
  c.id == cid && c.user_id == caller.id

/-- `routes/client_routes.py` `get_client`. -/
def getClient (db : DB) (caller : User) (cid : String) : Outcome Client :=
  match db.clients.find? (ownedClient caller cid) with
  | none => .msg "Client not found" 404
  | some c => .payload c 200

/-- The request body of `update_client`: each key may be absent. -/
structure ClientPatch where
  name : Option String
  email : Option String
  phone : Option String
  company : Option String
deriving DecidableEq

/-- The four `if 'field' in data` assignments of `update_client`; an absent
key leaves the stored value in place. -/
def applyClientPatch (p : ClientPatch) (c : Client) : Client :=
  { c with
    name := p.name.getD c.name
    email := p.email.getD c.email
    phone := p.phone.getD c.phone
    company := p.company.getD c.company }

/-- `routes/client_routes.py` `update_client`. -/
def updateClient (db : DB) (caller : User) (cid : String) (p : ClientPatch)
    (commitOk : Bool) : DB × Outcome Client :=
  match db.clients.find? (ownedClient caller cid) with
  | none => (db, .msg "Client not found" 404)
  | some c =>
    if commitOk then
      ({ db with clients :=
          updateFirst (ownedClient caller cid) (applyClientPatch p) db.clients },
       .payload (applyClientPatch p c) 200)
    else (db, .msg "Error updating client" 500)

/-- `routes/client_routes.py` `delete_client`. -/
def deleteClient (db : DB) (caller : User) (cid : String) (commitOk : Bool) :
    DB × Outcome Unit :=
  match db.clients.find? (ownedClient caller cid) with
  | none => (db, .msg "Client not found" 404)
  | some _ =>
    if commitOk then
      ({ db with clients := db.clients.eraseP (ownedClient caller cid) },
       .msg "Client deleted successfully" 200)
    else (db, .msg "Error deleting client" 500)

/-- The ownership query of the payment handlers. -/
def ownedPayment (caller : User) (pid : String) (p : Payment) : Bool :=
  p.id == pid && p.user_id == caller.id

/-- `routes/payment_routes.py` `get_payment`. -/
def getPayment (db : DB) (caller : User) (pid : String) : Outcome Payment :=
  match db.payments.find? (ownedPayment caller pid) with
  | none => .msg "Payment not found" 404
  | some p => .payload p 200

/-- The request body of `update_payment`. -/
structure PaymentPatch where
  amount : Option Int
  status : Option String
  description : Option String
  paymentMethod : Option String
deriving DecidableEq

/-- The `if 'field' in data` assignments of `update_payment`. -/
def applyPaymentPatch (pp : PaymentPatch) (p : Payment) : Payment :=
  { p with
    amount := pp.amount.getD p.amount
    status := pp.status.getD p.status
    description := pp.description.getD p.description
    payment_method := pp.paymentMethod.getD p.payment_method }

/-- `routes/payment_routes.py` `update_payment`. -/
def updatePayment (db : DB) (caller : User) (pid : String) (pp : PaymentPatch)
    (commitOk : Bool) : DB × Outcome Payment :=
  match db.payments.find? (ownedPayment caller pid) with
  | none => (db, .msg "Payment not found" 404)
  | some p =>
    if commitOk then
      ({ db with payments :=
          updateFirst (ownedPayment caller pid) (applyPaymentPatch pp) db.payments },
       .payload (applyPaymentPatch pp p) 200)
    else (db, .msg "Error updating payment" 500)

/-- `routes/payment_routes.py` `delete_payment`. -/
def deletePayment (db : DB) (caller : User) (pid : String) (commitOk : Bool) :
    DB × Outcome Unit :=
  match db.payments.find? (ownedPayment caller pid) with
  | none => (db, .msg "Payment not found" 404)
  | some _ =>
    if commitOk then
      ({ db with payments := db.payments.eraseP (ownedPayment caller pid) },
       .msg "Payment deleted successfully" 200)
    else (db, .msg "Error deleting payment" 500)

/-- The ownership query of the task handlers. -/
def ownedTask (caller : User) (tid : String) (t : Task) : Bool :=
  t.id == tid && t.user_id == caller.id

/-- `routes/tasks_routes.py` `get_task`. -/
def getTask (db : DB) (caller : User) (tid : String) : Outcome Task :=
  match db.tasks.find? (ownedTask caller tid) with
  | none => .msg "Task not found" 404
  | some t => .payload t 200

/-- The request body of `update_task`.  `dueDate` distinguishes an absent
key (`none`) from a present value, whose string is falsy (`""`, clearing
the date) or parsed as an ISO date. -/
structure TaskPatch where
  title : Option String
  description : Option String
  status : Option String
  priority : Option String
  dueDate : Option String
  projectId : Option String
deriving DecidableEq

/-- `db.session.commit()` / rollback at the end of `update_task`. -/
def updateTaskCommit (db : DB) (caller : User) (tid : String) (commitOk : Bool)
    (t6 : Task) : DB × Outcome Task :=
  if commitOk then
    ({ db with tasks := updateFirst (ownedTask caller tid) (fun _ => t6) db.tasks },
     .payload t6 200)
  else (db, .msg "Error updating task" 500)

/-- The `projectId` re-ownership check and the final commit of
`update_task`. -/
def updateTaskFinish (db : DB) (caller : User) (tid : String) (tp : TaskPatch)
    (commitOk : Bool) (t5 : Task) : DB × Outcome Task :=
  match tp.projectId with
  | some pid =>
    match db.projects.find? (fun pr => pr.id == pid && pr.user_id == caller.id) with
    | none => (db, .msg "Project not found or does not belong to you" 400)
    | some _ => updateTaskCommit db caller tid commitOk { t5 with project_id := pid }
  | none => updateTaskCommit db caller tid commitOk t5

/-- `routes/tasks_routes.py` `update_task`.  `parseIso` models the external
`datetime.fromisoformat` (after the `'Z'` normalization), returning `none`
on `ValueError`. -/
def updateTask (db : DB) (now : Nat) (parseIso : String → Option Nat)
    (caller : User) (tid : String) (tp : TaskPatch) (commitOk : Bool) :
    DB × Outcome Task :=
  match db.tasks.find? (ownedTask caller tid) with
  | none => (db, .msg "Task not found" 404)
  | some t =>
    let t1 := match tp.title with
      | some v => { t with title := v }
      | none => t
    let t2 := match tp.description with
      | some v => { t1 with description := v }
      | none => t1
    let t3 := match tp.status with
      | none => t2
      | some v =>
        let ta := { t2 with status := v }
        if v == "completed" then
          if ta.completed_at = none then { ta with completed_at := some now }
          else ta
        else { ta with completed_at := none }
    let t4 := match tp.priority with
      | some v => { t3 with priority := v }
      | none => t3
    match tp.dueDate with
    | some dv =>
      if dv ≠ "" then
        match parseIso dv with
        | none => (db, .msg "Invalid due date format" 400)
        | some d => updateTaskFinish db caller tid tp commitOk { t4 with due_date := some d }
      else updateTaskFinish db caller tid tp commitOk { t4 with due_date := none }
    | none => updateTaskFinish db caller tid tp commitOk t4

/-- `routes/tasks_routes.py` `delete_task`. -/
def deleteTask (db : DB) (caller : User) (tid : String) (commitOk : Bool) :
    DB × Outcome Unit :=
  match db.tasks.find? (ownedTask caller tid) with
  | none => (db, .msg "Task not found" 404)
  | some _ =>
    if commitOk then
      ({ db with tasks := db.tasks.eraseP (ownedTask caller tid) },
       .msg "Task deleted successfully" 200)
    else (db, .msg "Error deleting task" 500)

/- ### Concrete fixtures used by witnesses and counterexamples -/

/-- A registered user. -/
def user1 : User :=
  { id := "u1", email := "a@x.com", password_hash := hashPw "p1",
    full_name := "A", company := "" }

/-- A second registered user. -/
def user2 : User :=
  { id := "u2", email := "b@x.com", password_hash := hashPw "p2",
    full_name := "B", company := "" }

/-- The empty store. -/
def db0 : DB := { users := [], resetTokens := [], clients := [], payments := [], projects := [], tasks := [] }

/-- A store holding only `user1`. -/
def db1 : DB := { db0 with users := [user1] }

/-- A reset token for `user1` that is unused but already expired at time 10. -/
def tokenRow1 : PasswordResetToken :=
  { user_id := "u1", token := "t1", expires_at := 5, used := false }

/-- A store where `user1` has an expired, unused reset token. -/
def dbExp : DB := { db1 with resetTokens := [tokenRow1] }

/-- A reset token for `user1` that is active (unused, unexpired) at time 10. -/
def tokenRow2 : PasswordResetToken :=
  { user_id := "u1", token := "t2", expires_at := 20, used := false }

/-- A store where `user1` has an active reset token. -/
def dbAct : DB := { db1 with resetTokens := [tokenRow2] }

/-- A client owned by `user2`. -/
def clientB : Client :=
  { id := "c1", name := "N", email := "n@x.com", phone := "", company := "", user_id := "u2" }

/-- A payment owned by `user2`. -/
def paymentB : Payment :=
  { id := "p1", amount := 5, currency := "USD", description := "", status := "pending",
    payment_method := "", transaction_id := "tx1", client_id := "c1", user_id := "u2" }

/-- A task owned by `user2`. -/
def taskB : Task :=
  { id := "t1", title := "T", description := "", status := "todo", priority := "medium",
    due_date := none, completed_at := none, project_id := "pr1", user_id := "u2" }

/-- A store where every resource belongs to `user2`, not to `user1`. -/
def dbForeign : DB :=
  { db0 with users := [user1, user2], clients := [clientB], payments := [paymentB], tasks := [taskB] }

/-- A client owned by `user1`, stored after a foreign one. -/
def clientA : Client :=
  { id := "c2", name := "Old", email := "old@x.com", phone := "111", company := "OldCo",
    user_id := "u1" }

/-- A store whose client table holds a foreign client before `user1`'s own. -/
def dbClients : DB := { db0 with users := [user1], clients := [clientB, clientA] }

/-- `PasswordResetToken` rows carry pairwise-distinct token strings; the
schema enforces this with a unique constraint on `token`. -/
def tokensUnique (db : DB) : Prop :=
  db.resetTokens.Pairwise (fun a b => a.token ≠ b.token)

/-- The intended invariant of the reset flow: at most one unused reset
token per user (the unused rows carry pairwise-distinct owners). -/
def atMostOneUnusedPerUser (db : DB) : Prop :=
  (db.resetTokens.filter (fun r => !r.used)).Pairwise (fun a b => a.user_id ≠ b.user_id)

/- ### Parsing lemmas for the JWT model -/

theorem parseXs_replicate (n : Nat) (r : List Char) (h : r.head? ≠ some 'x') :
    parseXs (List.replicate n 'x' ++ r) = (n, r) := by
  induction n with
  | zero =>
    simp only [List.replicate, List.nil_append]
    match r with
    | [] => rfl
    | c :: rest =>
      simp only [List.head?] at h
      simp only [parseXs]
      rw [if_neg]
      intro hc
      exact h (by rw [hc])
  | succ n ih =>
    simp [List.replicate_succ, parseXs, ih]

theorem take_append_len (l r : List Char) : (l ++ r).take l.length = l := by
  induction l with
  | nil => simp
  | cons c t ih => simp [ih]

theorem drop_append_len (l r : List Char) : (l ++ r).drop l.length = r := by
  induction l with
  | nil => simp
  | cons c t ih => simp [ih]

/-- Round trip of the JWT model: decoding an encoded token recovers the
`user_id`, the `exp` claim and the signing key. -/
theorem jwtDecodeL_jwtEncode (uid : String) (exp : Nat) (key : String) :
    jwtDecodeL (jwtEncode uid exp key).data
      = some (uid.data, exp, key.data) := by
  have hdata : (jwtEncode uid exp key).data
      = 'j' :: 'w' :: 't' :: '.' ::
        (List.replicate uid.data.length 'x' ++ '.' ::
          (uid.data ++ (List.replicate exp 'x' ++ '.' :: key.data))) := by
    simp [jwtEncode, String.data_append]
  rw [hdata]
  simp only [jwtDecodeL]
  rw [parseXs_replicate _ _ (by simp)]
  simp only [take_append_len, drop_append_len]
  rw [parseXs_replicate _ _ (by simp)]
  simp

/-- Verifying an issued token with the signing key: before the expiry the
claims come back, after the expiry verification fails as expired. -/
theorem jwtVerify_jwtEncode (uid : String) (exp now : Nat) (key : String) :
    jwtVerify (jwtEncode uid exp key).data key now
      = if exp < now then .expired else .ok uid exp := by
  simp [jwtVerify, jwtDecodeL_jwtEncode]


/- ### Split and membership lemmas -/

theorem jwtEncode_data (uid : String) (exp : Nat) (key : String) :
    (jwtEncode uid exp key).data
      = 'j' :: 'w' :: 't' :: '.' ::
        (List.replicate uid.data.length 'x' ++ '.' ::
          (uid.data ++ (List.replicate exp 'x' ++ '.' :: key.data))) := by
  simp [jwtEncode, String.data_append]

theorem splitOnChar_ne_nil (sep : Char) (l : List Char) :
    splitOnChar sep l ≠ [] := by
  induction l with
  | nil => simp [splitOnChar]
  | cons c rest ih =>
    simp only [splitOnChar]
    cases h : splitOnChar sep rest with
    | nil => exact absurd h ih
    | cons w ws => by_cases hc : c = sep <;> simp [hc]

theorem splitOnChar_no_sep (sep : Char) (l : List Char) (h : sep ∉ l) :
    splitOnChar sep l = [l] := by
  induction l with
  | nil => rfl
  | cons c t ih =>
    have hc : c ≠ sep := fun e => h (by simp [e])
    have ht : sep ∉ t := fun m => h (List.mem_cons_of_mem _ m)
    simp only [splitOnChar, ih ht]
    simp [hc]

theorem splitOnChar_append_sep (sep : Char) (l r : List Char) (h : sep ∉ l) :
    splitOnChar sep (l ++ sep :: r) = l :: splitOnChar sep r := by
  induction l with
  | nil =>
    simp only [List.nil_append, splitOnChar]
    cases hs : splitOnChar sep r with
    | nil => exact absurd hs (splitOnChar_ne_nil sep r)
    | cons w ws => simp
  | cons c t ih =>
    have hc : c ≠ sep := fun e => h (by simp [e])
    have ht : sep ∉ t := fun m => h (List.mem_cons_of_mem _ m)
    simp only [List.cons_append, splitOnChar, List.append_eq]
    rw [ih ht]
    simp [hc]

theorem space_not_mem_jwtEncode (uid key : String) (exp : Nat)
    (hu : ' ' ∉ uid.data) (hk : ' ' ∉ key.data) :
    ' ' ∉ (jwtEncode uid exp key).data := by
  rw [jwtEncode_data]
  intro hm
  simp only [List.mem_cons, List.mem_append, List.mem_replicate] at hm
  simp only [show ((' ' : Char) = 'j') = False by simp,
    show ((' ' : Char) = 'w') = False by simp,
    show ((' ' : Char) = 't') = False by simp,
    show ((' ' : Char) = '.') = False by simp,
    show ((' ' : Char) = 'x') = False by simp,
    and_false, false_or, or_false] at hm
  rcases hm with h | h
  · exact hu h
  · exact hk h

/- ### `updateFirst` and `find?` lemmas -/

theorem find?_some_updateFirst (p : α → Bool) (f : α → α) :
    ∀ (l : List α) (x : α), l.find? p = some x →
      ∃ pre post, l = pre ++ x :: post ∧ (∀ y ∈ pre, p y = false) ∧
        updateFirst p f l = pre ++ f x :: post := by
  intro l
  induction l with
  | nil => intro x h; simp at h
  | cons a t ih =>
    intro x h
    cases hpa : p a with
    | true =>
      simp [List.find?, hpa] at h
      subst h
      exact ⟨[], t, by simp, by simp, by simp [updateFirst, hpa]⟩
    | false =>
      simp [List.find?, hpa] at h
      obtain ⟨pre, post, he, hpre, hu⟩ := ih x h
      refine ⟨a :: pre, post, by simp [he], ?_, by simp [updateFirst, hpa, hu]⟩
      intro y hy
      rcases List.mem_cons.mp hy with rfl | hy2
      · exact hpa
      · exact hpre y hy2

theorem find?_updateFirst_pos (p : α → Bool) (f : α → α)
    (hf : ∀ x, p x = true → p (f x) = true) :
    ∀ (l : List α) (x : α), l.find? p = some x →
      (updateFirst p f l).find? p = some (f x) := by
  intro l
  induction l with
  | nil => intro x h; simp at h
  | cons a t ih =>
    intro x h
    cases hpa : p a with
    | true =>
      simp [List.find?, hpa] at h
      subst h
      simp [updateFirst, hpa, List.find?, hf a hpa]
    | false =>
      simp [List.find?, hpa] at h
      simp [updateFirst, hpa, List.find?, ih x h]

theorem find?_mark_used_none (tok : String) :
    ∀ (l : List PasswordResetToken),
      l.Pairwise (fun a b => a.token ≠ b.token) →
      ∀ r, l.find? (activeTokenQuery tok) = some r →
      (updateFirst (activeTokenQuery tok) (fun rr => { rr with used := true }) l).find?
        (activeTokenQuery tok) = none := by
  intro l
  induction l with
  | nil => intro _ r h; simp at h
  | cons a t ih =>
    intro hpw r h
    rcases List.pairwise_cons.mp hpw with ⟨ha, ht⟩
    cases hpa : activeTokenQuery tok a with
    | true =>
      have htok : a.token = tok := by
        have h2 := hpa
        simp [activeTokenQuery] at h2
        exact h2.1
      have hmarked : activeTokenQuery tok { a with used := true } = false := by
        simp [activeTokenQuery]
      simp only [updateFirst, hpa, if_true, List.find?, hmarked]
      apply List.find?_eq_none.mpr
      intro b hb
      simp only [activeTokenQuery, Bool.and_eq_true, beq_iff_eq, Bool.not_eq_true']
      intro hcontra
      exact absurd hcontra.1 (Ne.symm (htok ▸ ha b hb))
    | false =>
      simp [List.find?, hpa] at h
      simp [updateFirst, hpa, List.find?, ih ht r h]


/- ### Claim C1 -/

/-- C1 counterexample: the authorization gate does distinguish failure causes
in the externally visible result.  `token_required` answers an expired token
with `'Token has expired'` and a malformed token with `'Invalid token'`
(different bodies), and `get_user_from_token` answers a valid token whose
user id resolves to no stored user with status 404, not 401. -/
theorem C1_counterexample :
    tokenRequired db1 "k" 9 (some ("Bearer " ++ jwtEncode "u1" 7 "k"))
        = .err "Token has expired" 401 ∧
    tokenRequired db1 "k" 9 (some "Bearer junk") = .err "Invalid token" 401 ∧
    getUserFromToken db1 "k" 0 (some ("Bearer " ++ jwtEncode "zz" 7 "k"))
        = .error ("User not found", 404) ∧
    ("Token has expired" : String) ≠ "Invalid token" ∧ (404 : Nat) ≠ 401 :=
  ⟨rfl, rfl, rfl, by decide, by decide⟩

/-- C1 (amended): every failure of the `token_required` gate carries HTTP
status 401 (though the message bodies distinguish the causes), while
`get_user_from_token` answers 401 for every failure except a missing user,
which it answers with status 404. -/
theorem C1_gate_status_codes :
    (∀ (db : DB) (key : String) (now : Nat) (hdr : Option String)
        (m : String) (s : Nat),
      tokenRequired db key now hdr = .err m s → s = 401) ∧
    (∀ (db : DB) (key : String) (now : Nat) (hdr : Option String)
        (m : String) (s : Nat),
      getUserFromToken db key now hdr = .error (m, s) →
        s = 401 ∨ (m = "User not found" ∧ s = 404)) := by
  constructor
  · intro db key now hdr m s h
    unfold tokenRequired at h
    repeat' split at h
    all_goals simp_all
  · intro db key now hdr m s h
    rcases hdr with _ | hs
    · simp [getUserFromToken] at h
      left
      exact h.2.symm
    · simp only [getUserFromToken] at h
      split at h
      · cases hv : jwtVerify (((splitOnChar ' ' hs.data).get? 1).getD []) key now with
        | ok uid exp =>
          rw [hv] at h
          cases hf : db.users.find? (fun u => u.id == uid) with
          | none =>
            simp [hf] at h
            right
            exact ⟨h.1.symm, h.2.symm⟩
          | some u =>
            simp [hf] at h
        | expired =>
          rw [hv] at h
          simp at h
          left
          exact h.2.symm
        | invalid =>
          rw [hv] at h
          simp at h
          left
          exact h.2.symm
      · simp at h
        left
        exact h.2.symm

/-- C1 witness: the amended statement applied at a concrete failing input. -/
theorem C1_gate_status_codes_witness : (401 : Nat) = 401 :=
  C1_gate_status_codes.1 db1 "k" 9 (some "Bearer junk") "Invalid token" 401 rfl

/- ### Claim C2 -/

/-- C2 counterexample: the gate accepts an Authorization header whose scheme
word is `Basic`, not `Bearer` — `token_required` never checks the scheme
word, so the claim that only the literal form `Bearer <token>` is accepted
is false. -/
theorem C2_counterexample :
    tokenRequired db1 "k" 0 (some ("Basic " ++ jwtEncode "u1" 7 "k")) = .ok user1 ∧
    ¬ ("Basic " ++ jwtEncode "u1" 7 "k").data.take 7 = "Bearer ".data :=
  ⟨rfl, by decide⟩

/-- C2 (amended): the gate fails with 401 when the header is absent, when it
has no space-separated second field, and when that second field is empty;
but it does not require the scheme word to be `Bearer` — a header
`<anyscheme> <valid token>` is accepted. -/
theorem C2_header_parsing :
    (∀ (db : DB) (key : String) (now : Nat),
      tokenRequired db key now none = .err "Token is missing" 401) ∧
    (∀ (db : DB) (key : String) (now : Nat) (h : String), ' ' ∉ h.data →
      tokenRequired db key now (some h) = .err "Invalid token format" 401) ∧
    (∀ (db : DB) (key : String) (now : Nat) (w : List Char), ' ' ∉ w →
      tokenRequired db key now (some (String.mk (w ++ [' '])))
        = .err "Token is missing" 401) ∧
    (∀ (db : DB) (key : String) (now : Nat) (scheme : List Char) (uid : String)
        (exp : Nat) (u : User),
      ' ' ∉ scheme → ' ' ∉ uid.data → ' ' ∉ key.data → ¬ exp < now →
      db.users.find? (fun x => x.id == uid) = some u →
      tokenRequired db key now
          (some (String.mk (scheme ++ ' ' :: (jwtEncode uid exp key).data)))
        = .ok u) := by
  refine ⟨fun db key now => rfl, ?_, ?_, ?_⟩
  · intro db key now h hsp
    simp [tokenRequired, splitOnChar_no_sep ' ' h.data hsp]
  · intro db key now w hw
    have hdata : (String.mk (w ++ [' '])).data = w ++ ' ' :: [] := rfl
    simp [tokenRequired, hdata, splitOnChar_append_sep ' ' w [] hw, splitOnChar]
  · intro db key now scheme uid exp u hs hu hk hexp hfind
    have henc := space_not_mem_jwtEncode uid key exp hu hk
    have hdata : (String.mk (scheme ++ ' ' :: (jwtEncode uid exp key).data)).data
        = scheme ++ ' ' :: (jwtEncode uid exp key).data := rfl
    have hne : (jwtEncode uid exp key).data ≠ [] := by
      rw [jwtEncode_data]; simp
    simp only [tokenRequired, hdata,
      splitOnChar_append_sep ' ' scheme _ hs,
      splitOnChar_no_sep ' ' _ henc, List.get?]
    rw [if_neg hne, jwtVerify_jwtEncode, if_neg hexp]
    simp [hfind]

/-- C2 witness: the amended statement's acceptance clause applied at a
concrete non-`Bearer` header. -/
theorem C2_header_parsing_witness :
    tokenRequired db1 "k" 0
        (some (String.mk ("Basic".data ++ ' ' :: (jwtEncode "u1" 7 "k").data)))
      = .ok user1 :=
  C2_header_parsing.2.2.2 db1 "k" 0 "Basic".data "u1" 7 user1 (by decide)
    (by decide) (by decide) (by decide) rfl

/- ### Claim C6 -/

/-- C6: for get/update/delete of a Client, Payment or Task by id, whenever no
row with that id belongs to the caller — whether the id is absent altogether
or the row exists with a different `user_id` — the handler returns the very
same NotFound outcome (status 404, never 403), leaving the store unchanged. -/
theorem C6_ownership_not_found :
    ∀ (db : DB) (caller : User) (rid : String) (now : Nat)
      (parseIso : String → Option Nat) (cp : ClientPatch) (pp : PaymentPatch)
      (tp : TaskPatch) (c : Bool),
      (∀ x ∈ db.clients, x.id = rid → x.user_id ≠ caller.id) →
      (∀ x ∈ db.payments, x.id = rid → x.user_id ≠ caller.id) →
      (∀ x ∈ db.tasks, x.id = rid → x.user_id ≠ caller.id) →
      getClient db caller rid = .msg "Client not found" 404 ∧
      updateClient db caller rid cp c = (db, .msg "Client not found" 404) ∧
      deleteClient db caller rid c = (db, .msg "Client not found" 404) ∧
      getPayment db caller rid = .msg "Payment not found" 404 ∧
      updatePayment db caller rid pp c = (db, .msg "Payment not found" 404) ∧
      deletePayment db caller rid c = (db, .msg "Payment not found" 404) ∧
      getTask db caller rid = .msg "Task not found" 404 ∧
      updateTask db now parseIso caller rid tp c = (db, .msg "Task not found" 404) ∧
      deleteTask db caller rid c = (db, .msg "Task not found" 404) := by
  intro db caller rid now parseIso cp pp tp c hc hp ht
  have hfc : db.clients.find? (ownedClient caller rid) = none := by
    apply List.find?_eq_none.mpr
    intro x hx
    simp only [ownedClient, Bool.and_eq_true, beq_iff_eq, not_and]
    exact hc x hx
  have hfp : db.payments.find? (ownedPayment caller rid) = none := by
    apply List.find?_eq_none.mpr
    intro x hx
    simp only [ownedPayment, Bool.and_eq_true, beq_iff_eq, not_and]
    exact hp x hx
  have hft : db.tasks.find? (ownedTask caller rid) = none := by
    apply List.find?_eq_none.mpr
    intro x hx
    simp only [ownedTask, Bool.and_eq_true, beq_iff_eq, not_and]
    exact ht x hx
  refine ⟨?_, ?_, ?_, ?_, ?_, ?_, ?_, ?_, ?_⟩ <;>
    simp [getClient, updateClient, deleteClient, getPayment, updatePayment,
      deletePayment, getTask, updateTask, deleteTask, hfc, hfp, hft]

/-- C6 witness: in a store where client `c1` exists but belongs to `user2`,
caller `user1` gets the same NotFound outcome as for absent ids. -/
theorem C6_ownership_not_found_witness :
    getClient dbForeign user1 "c1" = .msg "Client not found" 404 ∧
    updateClient dbForeign user1 "c1" ⟨none, none, none, none⟩ true
        = (dbForeign, .msg "Client not found" 404) ∧
    deleteClient dbForeign user1 "c1" true = (dbForeign, .msg "Client not found" 404) ∧
    getPayment dbForeign user1 "c1" = .msg "Payment not found" 404 ∧
    updatePayment dbForeign user1 "c1" ⟨none, none, none, none⟩ true
        = (dbForeign, .msg "Payment not found" 404) ∧
    deletePayment dbForeign user1 "c1" true = (dbForeign, .msg "Payment not found" 404) ∧
    getTask dbForeign user1 "c1" = .msg "Task not found" 404 ∧
    updateTask dbForeign 0 (fun _ => none) user1 "c1" ⟨none, none, none, none, none, none⟩ true
        = (dbForeign, .msg "Task not found" 404) ∧
    deleteTask dbForeign user1 "c1" true = (dbForeign, .msg "Task not found" 404) :=
  C6_ownership_not_found dbForeign user1 "c1" 0 (fun _ => none)
    ⟨none, none, none, none⟩ ⟨none, none, none, none⟩
    ⟨none, none, none, none, none, none⟩ true (by decide) (by decide) (by decide)


/- ### Reset-flow helper -/

/-- The success path of `reset_password`: with an active token, a resolvable
owner and a successful commit, the handler commits the new password hash and
the `used` flag together and answers 200. -/
theorem resetPassword_success_eq (db : DB) (now : Nat) (tok pw : String)
    (r : PasswordResetToken) (u : User) (htok : tok ≠ "") (hpw : pw ≠ "")
    (hfind : db.resetTokens.find? (activeTokenQuery tok) = some r)
    (hexp : ¬ r.expires_at < now)
    (huser : db.users.find? (fun x => x.id == r.user_id) = some u) :
    resetPassword db now tok pw true
      = ({ db with
            users := updateFirst (fun x => x.id == r.user_id)
              (fun x => { x with password_hash := hashPw pw }) db.users,
            resetTokens := updateFirst (activeTokenQuery tok)
              (fun rr => { rr with used := true }) db.resetTokens },
         ("Password reset successful", 200)) := by
  simp only [resetPassword]
  rw [if_neg (not_or.mpr ⟨htok, hpw⟩)]
  simp only [hfind]
  rw [if_neg hexp]
  simp [huser]

/- ### Claim C3 -/

/-- C3: for a stored active (unused, unexpired) reset token whose owner
exists, the first `reset_password` call with that token string succeeds with
200 and replaces the owner's password hash by the hash of the new password,
and every subsequent call with the same token string fails with the
`'Invalid or expired token'` response and leaves the state unchanged.  The
unique constraint on the `token` column is assumed as `tokensUnique`. -/
theorem C3_reset_token_single_use :
    ∀ (db : DB) (now now2 : Nat) (tok pw : String) (r : PasswordResetToken)
      (u : User),
      tok ≠ "" → pw ≠ "" →
      tokensUnique db →
      db.resetTokens.find? (activeTokenQuery tok) = some r →
      ¬ r.expires_at < now →
      db.users.find? (fun x => x.id == r.user_id) = some u →
      (resetPassword db now tok pw true).2 = ("Password reset successful", 200) ∧
      (resetPassword db now tok pw true).1.users.find? (fun x => x.id == r.user_id)
          = some { u with password_hash := hashPw pw } ∧
      (∀ (c2 : Bool) (pw2 : String), pw2 ≠ "" →
        resetPassword (resetPassword db now tok pw true).1 now2 tok pw2 c2
          = ((resetPassword db now tok pw true).1,
             ("Invalid or expired token", 400))) := by
  intro db now now2 tok pw r u htok hpw huniq hfind hexp huser
  have hres := resetPassword_success_eq db now tok pw r u htok hpw hfind hexp huser
  refine ⟨by rw [hres], ?_, ?_⟩
  · rw [hres]
    exact find?_updateFirst_pos (fun x => x.id == r.user_id)
      (fun x => { x with password_hash := hashPw pw }) (fun x hx => hx)
      db.users u huser
  · intro c2 pw2 hpw2
    have hnone : (updateFirst (activeTokenQuery tok)
        (fun rr => { rr with used := true }) db.resetTokens).find?
          (activeTokenQuery tok) = none :=
      find?_mark_used_none tok db.resetTokens huniq r hfind
    rw [hres]
    simp only [resetPassword]
    rw [if_neg (not_or.mpr ⟨htok, hpw2⟩)]
    simp [hnone]

/-- C3 witness: the single-use theorem at a concrete active token. -/
theorem C3_reset_token_single_use_witness :
    (resetPassword dbAct 10 "t2" "q" true).2 = ("Password reset successful", 200) ∧
    resetPassword (resetPassword dbAct 10 "t2" "q" true).1 10 "t2" "q2" true
      = ((resetPassword dbAct 10 "t2" "q" true).1,
         ("Invalid or expired token", 400)) :=
  ⟨(C3_reset_token_single_use dbAct 10 10 "t2" "q" tokenRow2 user1 (by decide)
      (by decide) (by simp [tokensUnique, dbAct, db1, db0]) rfl (by decide) rfl).1,
   (C3_reset_token_single_use dbAct 10 10 "t2" "q" tokenRow2 user1 (by decide)
      (by decide) (by simp [tokensUnique, dbAct, db1, db0]) rfl (by decide) rfl).2.2
     true "q2" (by decide)⟩

/- ### Claim C4 -/

/-- C4: `reset_password` commits the password-hash update and the `used`
flag as one atomic unit — a failing commit retains neither change (the
store is returned unchanged on every failure path), and a successful commit
applies both changes together. -/
theorem C4_reset_password_atomicity :
    ∀ (db : DB) (now : Nat) (tok pw : String),
      (resetPassword db now tok pw false).1 = db ∧
      (∀ (r : PasswordResetToken) (u : User),
        tok ≠ "" → pw ≠ "" →
        db.resetTokens.find? (activeTokenQuery tok) = some r →
        ¬ r.expires_at < now →
        db.users.find? (fun x => x.id == r.user_id) = some u →
        resetPassword db now tok pw true
          = ({ db with
                users := updateFirst (fun x => x.id == r.user_id)
                  (fun x => { x with password_hash := hashPw pw }) db.users,
                resetTokens := updateFirst (activeTokenQuery tok)
                  (fun rr => { rr with used := true }) db.resetTokens },
             ("Password reset successful", 200))) := by
  intro db now tok pw
  constructor
  · unfold resetPassword
    repeat' split
    all_goals simp_all
  · intro r u htok hpw hfind hexp huser
    exact resetPassword_success_eq db now tok pw r u htok hpw hfind hexp huser

/-- C4 witness: the atomicity theorem at a concrete active token — a failed
commit leaves the store unchanged, a successful one applies both changes. -/
theorem C4_reset_password_atomicity_witness :
    (resetPassword dbAct 10 "t2" "q" false).1 = dbAct ∧
    resetPassword dbAct 10 "t2" "q" true
      = ({ dbAct with
            users := updateFirst (fun x => x.id == tokenRow2.user_id)
              (fun x => { x with password_hash := hashPw "q" }) dbAct.users,
            resetTokens := updateFirst (activeTokenQuery "t2")
              (fun rr => { rr with used := true }) dbAct.resetTokens },
         ("Password reset successful", 200)) :=
  ⟨(C4_reset_password_atomicity dbAct 10 "t2" "q").1,
   (C4_reset_password_atomicity dbAct 10 "t2" "q").2 tokenRow2 user1 (by decide)
     (by decide) rfl (by decide) rfl⟩

/- ### Claim C8 -/

/-- C8 counterexample: an expired-but-unused reset token is answered with
`'Token has expired'`, while a token that was never stored is answered with
`'Invalid or expired token'` — the two externally visible failures differ,
so the claim that they are the same is false (both do carry status 400). -/
theorem C8_counterexample :
    resetPassword dbExp 10 "t1" "q" true = (dbExp, ("Token has expired", 400)) ∧
    resetPassword db1 10 "t1" "q" true = (db1, ("Invalid or expired token", 400)) ∧
    ("Token has expired" : String) ≠ "Invalid or expired token" :=
  ⟨rfl, rfl, by decide⟩

/-- C8 (amended): redeeming a stored, unused reset token whose expiry has
passed fails with status 400 and message `'Token has expired'` (the same
status as, but a different message than, the not-found failure), changes no
state, and in particular does not delete the expired row. -/
theorem C8_reset_expired_token :
    ∀ (db : DB) (now : Nat) (tok pw : String) (r : PasswordResetToken)
      (c : Bool),
      tok ≠ "" → pw ≠ "" →
      db.resetTokens.find? (activeTokenQuery tok) = some r →
      r.expires_at < now →
      resetPassword db now tok pw c = (db, ("Token has expired", 400)) := by
  intro db now tok pw r c htok hpw hfind hexp
  simp only [resetPassword]
  rw [if_neg (not_or.mpr ⟨htok, hpw⟩)]
  simp [hfind, hexp]

/-- C8 witness: the amended statement at the concrete expired token. -/
theorem C8_reset_expired_token_witness :
    resetPassword dbExp 10 "t1" "q" false = (dbExp, ("Token has expired", 400)) :=
  C8_reset_expired_token dbExp 10 "t1" "q" tokenRow1 false (by decide) (by decide)
    rfl (by decide)


/- ### Claim C5 -/

/-- C5: `forgot_password` answers a registered and an unregistered email
with the identical success response (same message, same 200 status); the
unregistered path stores nothing and dispatches no email, while the
registered path persists exactly one fresh token for the user and hands
exactly one message to the email collaborator. -/
theorem C5_forgot_password_hiding :
    ∀ (db : DB) (now : Nat) (tok e1 e2 : String) (u : User),
      e1 ≠ "" → e2 ≠ "" →
      db.users.find? (fun x => x.email == e1) = some u →
      db.users.find? (fun x => x.email == e2) = none →
      (forgotPassword db now tok e1 true).2.2
          = (forgotPassword db now tok e2 true).2.2 ∧
      (forgotPassword db now tok e2 true).1 = db ∧
      (forgotPassword db now tok e2 true).2.1 = [] ∧
      (forgotPassword db now tok e1 true).1.resetTokens
          = db.resetTokens.filter (fun r => !(r.user_id == u.id))
            ++ [{ user_id := u.id, token := tok,
                  expires_at := now + PASSWORD_RESET_TOKEN_EXPIRATION_DAYS,
                  used := false }] ∧
      (forgotPassword db now tok e1 true).2.1
          = [{ to_addr := u.email, user_name := u.full_name,
               reset_url := FRONTEND_URL ++ "/reset-password?token=" ++ tok }] := by
  intro db now tok e1 e2 u h1 h2 hf1 hf2
  refine ⟨?_, ?_, ?_, ?_, ?_⟩ <;> simp [forgotPassword, h1, h2, hf1, hf2]

/-- C5 witness: the hiding theorem at a registered and an unregistered
concrete email. -/
theorem C5_forgot_password_hiding_witness :
    (forgotPassword db1 0 "t9" "a@x.com" true).2.2
        = (forgotPassword db1 0 "t9" "b@x.com" true).2.2 ∧
    (forgotPassword db1 0 "t9" "b@x.com" true).1 = db1 ∧
    (forgotPassword db1 0 "t9" "b@x.com" true).2.1 = [] :=
  ⟨(C5_forgot_password_hiding db1 0 "t9" "a@x.com" "b@x.com" user1 (by decide)
      (by decide) rfl rfl).1,
   (C5_forgot_password_hiding db1 0 "t9" "a@x.com" "b@x.com" user1 (by decide)
      (by decide) rfl rfl).2.1,
   (C5_forgot_password_hiding db1 0 "t9" "a@x.com" "b@x.com" user1 (by decide)
      (by decide) rfl rfl).2.2.1⟩

/- ### Claim C7 -/

/-- C7: a token issued at `t0` carries the user id and the absolute expiry
`t0 + JWT_EXPIRATION_DAYS` (7 days); verifying before the expiry succeeds
and returns that user id and expiry, verifying after the expiry fails as
expired; `login` issues exactly such a token for the authenticated user. -/
theorem C7_token_roundtrip :
    ∀ (uid key : String) (t0 t : Nat),
      (t < t0 + JWT_EXPIRATION_DAYS →
        jwtVerify (issueToken uid t0 key).data key t
          = .ok uid (t0 + JWT_EXPIRATION_DAYS)) ∧
      (t0 + JWT_EXPIRATION_DAYS < t →
        jwtVerify (issueToken uid t0 key).data key t = .expired) ∧
      (∀ (db : DB) (email pw : String) (u : User), email ≠ "" → pw ≠ "" →
        db.users.find? (fun x => x.email == email) = some u →
        checkPasswordHash u.password_hash pw = true →
        login db key t0 email pw = .ok (issueToken u.id t0 key) u) := by
  intro uid key t0 t
  refine ⟨?_, ?_, ?_⟩
  · intro hlt
    rw [issueToken, jwtVerify_jwtEncode, if_neg (by omega)]
  · intro hgt
    rw [issueToken, jwtVerify_jwtEncode, if_pos hgt]
  · intro db email pw u he hp hf hc
    simp [login, he, hp, hf, hc]

/-- C7 witness: issuance at time 0 with the 7-day window, verified at times
3 (valid) and 9 (expired), and the login that issues it. -/
theorem C7_token_roundtrip_witness :
    jwtVerify (issueToken "u1" 0 "k").data "k" 3 = .ok "u1" 7 ∧
    jwtVerify (issueToken "u1" 0 "k").data "k" 9 = .expired ∧
    login db1 "k" 0 "a@x.com" "p1" = .ok (issueToken "u1" 0 "k") user1 :=
  ⟨(C7_token_roundtrip "u1" "k" 0 3).1 (by decide),
   (C7_token_roundtrip "u1" "k" 0 9).2.1 (by decide),
   (C7_token_roundtrip "u1" "k" 0 9).2.2 db1 "a@x.com" "p1" user1 (by decide)
     (by decide) rfl (by decide)⟩

/- ### Claim C9 -/

/-- Deleting every token of `uid` and appending one fresh unused token
preserves the at-most-one-unused-token-per-owner shape of the token table. -/
theorem unusedPairwise_step (l : List PasswordResetToken) (uid tok : String)
    (exp : Nat)
    (hinv : List.Pairwise (fun a b => a.user_id ≠ b.user_id)
      (List.filter (fun r => !r.used) l)) :
    List.Pairwise (fun a b => a.user_id ≠ b.user_id)
      (List.filter (fun r => !r.used)
        (List.filter (fun r => !(r.user_id == uid)) l
          ++ [{ user_id := uid, token := tok, expires_at := exp, used := false }])) := by
  rw [List.filter_append]
  apply List.pairwise_append.mpr
  have hsub : List.Sublist
      ((l.filter (fun r => !(r.user_id == uid))).filter (fun r => !r.used))
      (l.filter (fun r => !r.used)) :=
    List.Sublist.filter _ (List.filter_sublist l)
  refine ⟨hinv.sublist hsub, by simp, ?_⟩
  intro a ha b hb
  have hb2 : b = { user_id := uid, token := tok, expires_at := exp, used := false } := by
    simp at hb
    exact hb
  have ha2 := (List.mem_filter.mp (List.mem_filter.mp ha).1).2
  simp at ha2
  rw [hb2]
  exact ha2

/-- C9: a successful `forgot_password` for a registered user first deletes
every stored reset token of that user and then inserts exactly one fresh
unused one; consequently the handler preserves the invariant that each user
owns at most one unused reset token. -/
theorem C9_forgot_password_single_active :
    ∀ (db : DB) (now : Nat) (tok email : String) (c : Bool),
      (atMostOneUnusedPerUser db →
        atMostOneUnusedPerUser (forgotPassword db now tok email c).1) ∧
      (∀ u : User, email ≠ "" →
        db.users.find? (fun x => x.email == email) = some u →
        (forgotPassword db now tok email true).1.resetTokens
          = db.resetTokens.filter (fun r => !(r.user_id == u.id))
            ++ [{ user_id := u.id, token := tok,
                  expires_at := now + PASSWORD_RESET_TOKEN_EXPIRATION_DAYS,
                  used := false }]) := by
  intro db now tok email c
  constructor
  · intro hinv
    by_cases he : email = ""
    · simpa [forgotPassword, he] using hinv
    · cases hfe : db.users.find? (fun x => x.email == email) with
      | none => simpa [forgotPassword, he, hfe] using hinv
      | some u =>
        cases c with
        | false => simpa [forgotPassword, he, hfe] using hinv
        | true =>
          have hres : (forgotPassword db now tok email true).1.resetTokens
              = db.resetTokens.filter (fun r => !(r.user_id == u.id))
                ++ [{ user_id := u.id, token := tok,
                      expires_at := now + PASSWORD_RESET_TOKEN_EXPIRATION_DAYS,
                      used := false }] := by
            simp [forgotPassword, he, hfe]
          unfold atMostOneUnusedPerUser
          rw [hres]
          exact unusedPairwise_step db.resetTokens u.id tok _ hinv
  · intro u he hfu
    simp [forgotPassword, he, hfu]

/-- C9 witness: the preservation statement at a concrete store. -/
theorem C9_forgot_password_single_active_witness :
    atMostOneUnusedPerUser (forgotPassword dbAct 0 "t9" "a@x.com" true).1 ∧
    (forgotPassword dbAct 0 "t9" "a@x.com" true).1.resetTokens
      = dbAct.resetTokens.filter (fun r => !(r.user_id == user1.id))
        ++ [{ user_id := user1.id, token := "t9",
              expires_at := 0 + PASSWORD_RESET_TOKEN_EXPIRATION_DAYS,
              used := false }] :=
  ⟨(C9_forgot_password_single_active dbAct 0 "t9" "a@x.com" true).1
      (by simp [atMostOneUnusedPerUser, dbAct, db1, db0, tokenRow2]),
   (C9_forgot_password_single_active dbAct 0 "t9" "a@x.com" true).2 user1
      (by decide) rfl⟩

/- ### Claim C10 -/

/-- C10: an authorized `update_client` modifies exactly the fields whose
keys are present in the body — every absent key keeps the stored value, the
row's `id` and `user_id` are untouched, every other client row is returned
unchanged, and every other table is untouched. -/
theorem C10_update_client_frame :
    ∀ (db : DB) (caller : User) (cid : String) (p : ClientPatch) (c : Client),
      db.clients.find? (ownedClient caller cid) = some c →
      updateClient db caller cid p true
        = ({ db with clients := updateFirst (ownedClient caller cid)
                          (applyClientPatch p) db.clients },
           .payload (applyClientPatch p c) 200) ∧
      (∃ pre post, db.clients = pre ++ c :: post ∧
        (∀ y ∈ pre, ownedClient caller cid y = false) ∧
        (updateClient db caller cid p true).1.clients
          = pre ++ applyClientPatch p c :: post) ∧
      (p.name = none → (applyClientPatch p c).name = c.name) ∧
      (p.email = none → (applyClientPatch p c).email = c.email) ∧
      (p.phone = none → (applyClientPatch p c).phone = c.phone) ∧
      (p.company = none → (applyClientPatch p c).company = c.company) ∧
      (applyClientPatch p c).id = c.id ∧
      (applyClientPatch p c).user_id = c.user_id ∧
      (updateClient db caller cid p true).1.users = db.users ∧
      (updateClient db caller cid p true).1.payments = db.payments ∧
      (updateClient db caller cid p true).1.projects = db.projects ∧
      (updateClient db caller cid p true).1.tasks = db.tasks ∧
      (updateClient db caller cid p true).1.resetTokens = db.resetTokens := by
  intro db caller cid p c hfind
  have hupd : updateClient db caller cid p true
      = ({ db with clients := updateFirst (ownedClient caller cid)
                        (applyClientPatch p) db.clients },
         .payload (applyClientPatch p c) 200) := by
    simp [updateClient, hfind]
  obtain ⟨pre, post, he, hpre, hu⟩ :=
    find?_some_updateFirst (ownedClient caller cid) (applyClientPatch p)
      db.clients c hfind
  refine ⟨hupd, ⟨pre, post, he, hpre, by rw [hupd]; exact hu⟩,
    ?_, ?_, ?_, ?_, rfl, rfl, by rw [hupd], by rw [hupd], by rw [hupd],
    by rw [hupd], by rw [hupd]⟩ <;>
    (intro h; simp [applyClientPatch, h])

/-- C10 witness: updating only the name of `user1`'s client leaves its
email/phone/company and the rest of the store unchanged. -/
theorem C10_update_client_frame_witness :
    updateClient dbClients user1 "c2" ⟨some "New", none, none, none⟩ true
      = ({ dbClients with clients := updateFirst (ownedClient user1 "c2")
                              (applyClientPatch ⟨some "New", none, none, none⟩) dbClients.clients },
         .payload (applyClientPatch ⟨some "New", none, none, none⟩ clientA) 200) ∧
    (applyClientPatch ⟨some "New", none, none, none⟩ clientA).email = clientA.email :=
  ⟨(C10_update_client_frame dbClients user1 "c2" ⟨some "New", none, none, none⟩
      clientA rfl).1,
   (C10_update_client_frame dbClients user1 "c2" ⟨some "New", none, none, none⟩
      clientA rfl).2.2.2.1 rfl⟩

end CMB
